import Mathlib

/-!
Verification of `src/lambda_function.py`: an AWS Lambda handler that, on an
S3 object-created event, fetches the object, submits its text to the RunPod
inference API for summarization, polls the job until completion, and writes
the summary back to S3 under a derived key.

The embedding below is a shallow one: JSON values are modelled by `JVal`,
Python exceptions by `PyExc`, and the three external collaborators (S3 and
the two RunPod endpoints) by oracles bundled in `Fx`.  Each external call the
pipeline attempts is recorded in an `Effect` trace so that ordering and
absence of calls can be stated.  Machine-level details that no claim touches
(real time of `time.sleep`, HTTP header contents, UTF-8 byte-level percent
decoding, exact decimal rendering of floats) are abstracted; everything the
claims mention is translated from the source.
-/

/-- JSON values, as produced by `response.json()` and consumed by
`json.dumps`.  Numbers are kept exactly as decimal literals
`m * 10 ^ (-e)` (so `0.7` is `num 7 1` and `16000` is `num 16000 0`). -/
inductive JVal where
  | null
  | bool (b : Bool)
  | num (m : Int) (e : Nat)
  | str (s : String)
  | arr (items : List JVal)
  | obj (fields : List (String × JVal))

/-- Python dictionary lookup (`d.get(k)` / `k in d`) on a JSON object's
field list; first match wins, as keys of a parsed JSON object are unique. -/
def jlookup : List (String × JVal) → String → Option JVal
  | [], _ => none
  | (k, v) :: rest, key => if k = key then some v else jlookup rest key

/-- The Python exceptions the handler can raise or catch.  Each carries the
text that `str(e)` would produce (for `KeyError` Python quotes the key). -/
inductive PyExc where
  | valueError (msg : String)
  | typeError (msg : String)
  | keyError (key : String)
  | indexError (msg : String)
  | attributeError (msg : String)
  | timeoutError (msg : String)
  | requestException (msg : String)
deriving DecidableEq

/-- `str(e)` for an exception. -/
def pyExcStr : PyExc → String
  | .valueError m => m
  | .typeError m => m
  | .keyError k => "\x27" ++ k ++ "\x27"
  | .indexError m => m
  | .attributeError m => m
  | .timeoutError m => m
  | .requestException m => m

mutual

/-- Python `repr` of a JSON value (used by `str` on containers).  The
decimal rendering of non-integer numbers is abstracted as `me-e`. -/
def pyRepr : JVal → String
  | .null => "None"
  | .bool b => if b then "True" else "False"
  | .num m e => toString m ++ (if e = 0 then "" else "e-" ++ toString e)
  | .str s => "\x27" ++ s ++ "\x27"
  | .arr xs => "[" ++ String.intercalate ", " (pyReprList xs) ++ "]"
  | .obj fs => "\x7b" ++ String.intercalate ", " (pyReprFields fs) ++ "\x7d"

def pyReprList : List JVal → List String
  | [] => []
  | x :: xs => pyRepr x :: pyReprList xs

def pyReprFields : List (String × JVal) → List String
  | [] => []
  | (k, v) :: fs => ("\x27" ++ k ++ "\x27: " ++ pyRepr v) :: pyReprFields fs

end

/-- Python `str()` of a JSON value, as applied by an f-string. -/
def pyStr : JVal → String
  | .str s => s
  | v => pyRepr v

mutual

/-- `json.dumps` of a JSON value (default separators). -/
def jdumps : JVal → String
  | .null => "null"
  | .bool b => if b then "true" else "false"
  | .num m e => toString m ++ (if e = 0 then "" else "e-" ++ toString e)
  | .str s => "\"" ++ s ++ "\""
  | .arr xs => "[" ++ String.intercalate ", " (jdumpsList xs) ++ "]"
  | .obj fs => "\x7b" ++ String.intercalate ", " (jdumpsFields fs) ++ "\x7d"

def jdumpsList : List JVal → List String
  | [] => []
  | x :: xs => jdumps x :: jdumpsList xs

def jdumpsFields : List (String × JVal) → List String
  | [] => []
  | (k, v) :: fs => ("\"" ++ k ++ "\": " ++ jdumps v) :: jdumpsFields fs

end

/-- Python `d[key]` subscription on a JSON value. -/
def pyGetItem (v : JVal) (key : String) : Except PyExc JVal :=
  match v with
  | .obj fields =>
    match jlookup fields key with
    | some x => .ok x
    | none => .error (.keyError key)
  | _ => .error (.typeError "value is not subscriptable by a string key")

/-- Positional lookup in a list. -/
def listIndex : List JVal → Nat → Option JVal
  | [], _ => none
  | x :: _, 0 => some x
  | _ :: xs, n + 1 => listIndex xs n

/-- Python `l[i]` subscription on a JSON value. -/
def pyIndex (v : JVal) (i : Nat) : Except PyExc JVal :=
  match v with
  | .arr items =>
    match listIndex items i with
    | some x => .ok x
    | none => .error (.indexError "list index out of range")
  | _ => .error (.typeError "value is not subscriptable by an integer index")

/-- Coerce a JSON value to the string the surrounding code requires
(`unquote_plus` and the boto3 parameters only accept `str`). -/
def expectStr : JVal → Except PyExc String
  | .str s => .ok s
  | _ => .error (.typeError "expected a string value")

/-- Truthiness of an `os.environ.get` result: `None` and the empty string
are falsy, every other string is truthy. -/
def truthy : Option String → Bool
  | none => false
  | some s => !s.isEmpty

/-- Value of a hexadecimal digit, for percent decoding. -/
def hexDigit (c : Char) : Option Nat :=
  if '0' ≤ c ∧ c ≤ '9' then some (c.toNat - Char.toNat '0')
  else if 'a' ≤ c ∧ c ≤ 'f' then some (c.toNat - Char.toNat 'a' + 10)
  else if 'A' ≤ c ∧ c ≤ 'F' then some (c.toNat - Char.toNat 'A' + 10)
  else none

def unquotePlusAux : List Char → List Char
  | [] => []
  | '+' :: rest => ' ' :: unquotePlusAux rest
  | '%' :: a :: b :: rest =>
    match hexDigit a, hexDigit b with
    | some x, some y => Char.ofNat (16 * x + y) :: unquotePlusAux rest
    | _, _ => '%' :: unquotePlusAux (a :: b :: rest)
  | c :: rest => c :: unquotePlusAux rest

/-- `urllib.parse.unquote_plus`: a plus becomes a space and `%XX` escapes
are decoded (invalid escapes are kept verbatim).  Multi-byte UTF-8 escape
sequences are abstracted to one character per byte. -/
def unquote_plus (s : String) : String :=
  String.mk (unquotePlusAux s.data)

/-- Configuration read from environment variables at module load
(lines 12-15).  `os.environ.get` with no default yields `None` when the
variable is unset; `OUTPUT_BUCKET` and `OUTPUT_PREFIX` default to `""` and
`"summaries/"`. -/
structure Config where
  RUNPOD_API_KEY : Option String
  RUNPOD_ENDPOINT_URL : Option String
  OUTPUT_BUCKET : String
  OUTPUT_PREFIX : String

/-- Constants (lines 18-20). -/
def MAX_TOKENS : Nat := 16000

def POLL_INTERVAL : Nat := 5

def MAX_POLLING_ATTEMPTS : Nat := 60

/-- Outcome of one `GET /status/{id}` poll: either a
`requests.exceptions.RequestException` (connection error, non-2xx status
via `raise_for_status`, ...) or a parsed JSON object body. -/
inductive PollResp where
  | reqError
  | ok (body : List (String × JVal))

/-- Oracles for the three external collaborators: S3 `get_object`,
`POST /run`, `GET /status/{id}` (per attempt index), and S3 `put_object`. -/
structure Fx where
  get_object : String → String → Except PyExc String
  run_request : JVal → Except PyExc (List (String × JVal))
  status_request : Nat → PollResp
  put_object : String → String → String → String → Except PyExc Unit

/-- One entry per external call the pipeline attempts, in order. -/
inductive Effect where
  | s3Get (bucket key : String)
  | httpRun (payload : JVal)
  | httpStatus (job_id : String)
  | s3Put (bucket key body contentType : String)

/-- `os.path.basename`: the suffix after the last slash. -/
def basename (p : String) : String :=
  String.mk ((p.data.reverse.takeWhile (fun c => c ≠ '/')).reverse)

def pyReplaceAux (pat rep : List Char) : Nat → List Char → List Char
  | 0, s => s
  | _, [] => []
  | fuel + 1, c :: rest =>
    if pat.isPrefixOf (c :: rest) then
      rep ++ pyReplaceAux pat rep fuel ((c :: rest).drop pat.length)
    else
      c :: pyReplaceAux pat rep fuel rest

/-- Python `str.replace`: every non-overlapping occurrence of `pat`,
scanning left to right, is replaced by `rep`.  The fuel `s.length` suffices
because each step consumes at least one character of a non-empty pattern
(the empty-pattern corner of Python is not exercised by the code). -/
def pyReplace (s pat rep : String) : String :=
  if pat.isEmpty then s
  else String.mk (pyReplaceAux pat.data rep.data s.data.length s.data)

/-- Line 54: the output key derived from the input key. -/
def deriveOutputKey (outPre key : String) : String :=
  outPre ++ pyReplace (basename key) ".txt" "_summary.txt"

/-- The subscription `event["Records"][0]`, evaluated afresh on each of
lines 30 and 31. -/
def record0 (event : JVal) : Except PyExc JVal :=
  match pyGetItem event "Records" with
  | .error e => .error e
  | .ok records => pyIndex records 0

/-- The rest of line 30: `r["s3"]["bucket"]["name"]`. -/
def recordBucketName (r : JVal) : Except PyExc String := do
  let s3val ← pyGetItem r "s3"
  let bucketObj ← pyGetItem s3val "bucket"
  let nameVal ← pyGetItem bucketObj "name"
  expectStr nameVal

/-- The rest of line 31: `r["s3"]["object"]["key"]`. -/
def recordObjectKey (r : JVal) : Except PyExc String := do
  let s3val ← pyGetItem r "s3"
  let objVal ← pyGetItem s3val "object"
  let keyVal ← pyGetItem objVal "key"
  expectStr keyVal

/-- Lines 30-31: extract `(bucket, url-decoded key)` from the event, with
the exceptions Python subscription would raise on malformed events. -/
def parseEvent (event : JVal) : Except PyExc (String × String) := do
  let r0 ← record0 event
  let bucket ← recordBucketName r0
  let r0b ← record0 event
  let rawKey ← recordObjectKey r0b
  pure (bucket, unquote_plus rawKey)

/-- The fixed instruction prepended to the transcription (line 102). -/
def promptHeader : String :=
  "Please provide a comprehensive summary of the following transcription in approximately 4000 words. Focus on capturing the main points, key discussions, and important conclusions:\n\n"

/-- Lines 100-107: the JSON body of the `POST /run` request. -/
def buildPayload (text_data : String) : JVal :=
  .obj [("input", .obj [
    ("prompt", .str (promptHeader ++ text_data)),
    ("max_new_tokens", .num (MAX_TOKENS : Int) 0),
    ("temperature", .num 7 1),
    ("top_p", .num 9 1)])]

/-- Lines 81-130: `initiate_runpod_job`.  Returns the parsed `/run`
response (an object containing `id`) or the exception raised, together
with the external calls attempted. -/
def initiate_runpod_job (cfg : Config) (fx : Fx) (text_data : String) :
    Except PyExc (List (String × JVal)) × List Effect :=
  if !truthy cfg.RUNPOD_API_KEY || !truthy cfg.RUNPOD_ENDPOINT_URL then
    (.error (.valueError "RunPod API key or endpoint URL not configured"), [])
  else
    let payload := buildPayload text_data
    match fx.run_request payload with
    | .error e => (.error e, [.httpRun payload])
    | .ok result =>
      if (jlookup result "id").isSome then
        (.ok result, [.httpRun payload])
      else
        (.error (.valueError ("RunPod API did not return a job ID: " ++ pyRepr (.obj result))),
         [.httpRun payload])

/-- Python `v == "lit"` for a `d.get` result: true exactly when the value
is present and is that string. -/
def eqStrVal (v : Option JVal) (s : String) : Bool :=
  match v with
  | some (.str t) => t == s
  | _ => false

/-- What one loop body of `poll_runpod_job` does with a parsed status
body: return a value, raise, or fall through to the next attempt. -/
inductive StepOutcome where
  | ret (v : JVal)
  | raise (e : PyExc)
  | cont

/-- Lines 169-179: normalization of the `output` field of a completed job.
`output[0].get(...)` is an `AttributeError` when the first list element is
not a dict. -/
def extract_output (out : JVal) : StepOutcome :=
  match out with
  | .str s => .ret (.str s)
  | .obj fs =>
    match jlookup fs "text" with
    | some t => .ret t
    | none => .ret (.str (jdumps out))
  | .arr (first :: _) =>
    match first with
    | .obj ffs => .ret ((jlookup ffs "text").getD (.str (jdumps out)))
    | _ => .raise (.attributeError "first list element has no attribute get")
  | _ => .ret (.str (jdumps out))

/-- Lines 184-186: the message of the `ValueError` raised on a `FAILED` or
`CANCELLED` status. -/
def failureMessage (status_data : List (String × JVal)) : String :=
  let base := "RunPod job failed with status: " ++ pyStr ((jlookup status_data "status").getD .null)
  match jlookup status_data "error" with
  | some ev => base ++ ", error: " ++ pyStr ev
  | none => base

/-- Lines 162-190: handling of one successfully parsed status body. -/
def pollStep (status_data : List (String × JVal)) : StepOutcome :=
  if eqStrVal (jlookup status_data "status") "COMPLETED" then
    match jlookup status_data "output" with
    | some out => extract_output out
    | none => .raise (.valueError ("No output found in completed job: " ++ pyRepr (.obj status_data)))
  else if eqStrVal (jlookup status_data "status") "FAILED"
       || eqStrVal (jlookup status_data "status") "CANCELLED" then
    .raise (.valueError (failureMessage status_data))
  else
    .cont

/-- Line 198: the `TimeoutError` message. -/
def timeoutMessage (job_id : String) : String :=
  "Timed out waiting for RunPod job " ++ job_id ++ " after "
    ++ toString MAX_POLLING_ATTEMPTS ++ " polling attempts"

/-- Lines 154-198: the poll loop, by remaining attempts.  A
`RequestException` during an attempt is swallowed and the loop continues;
the `ValueError` / `AttributeError` raised by `pollStep` are not
`RequestException`s, so they escape the `except` clause. -/
def pollAux (statusReq : Nat → PollResp) (job_id : String) :
    Nat → Nat → Except PyExc JVal × List Effect
  | _, 0 => (.error (.timeoutError (timeoutMessage job_id)), [])
  | attempt, fuel + 1 =>
    match statusReq attempt with
    | .reqError =>
      let r := pollAux statusReq job_id (attempt + 1) fuel
      (r.1, .httpStatus job_id :: r.2)
    | .ok status_data =>
      match pollStep status_data with
      | .ret v => (.ok v, [.httpStatus job_id])
      | .raise e => (.error e, [.httpStatus job_id])
      | .cont =>
        let r := pollAux statusReq job_id (attempt + 1) fuel
        (r.1, .httpStatus job_id :: r.2)

/-- Lines 132-198: `poll_runpod_job`. -/
def poll_runpod_job (statusReq : Nat → PollResp) (job_id : String) :
    Except PyExc JVal × List Effect :=
  pollAux statusReq job_id 0 MAX_POLLING_ATTEMPTS

/-- Lines 27-62: the body of `lambda_handler`'s `try` block, with the
trace of attempted external calls.  A successful run yields the output
bucket and key the summary was stored under. -/
def runPipeline (cfg : Config) (fx : Fx) (event : JVal) :
    Except PyExc (String × String) × List Effect :=
  match parseEvent event with
  | .error e => (.error e, [])
  | .ok (bucket, key) =>
    let output_bucket := if cfg.OUTPUT_BUCKET = "" then bucket else cfg.OUTPUT_BUCKET
    match fx.get_object bucket key with
    | .error e => (.error e, [.s3Get bucket key])
    | .ok text_data =>
      match initiate_runpod_job cfg fx text_data with
      | (.error e, tr1) => (.error e, .s3Get bucket key :: tr1)
      | (.ok run_response, tr1) =>
        match jlookup run_response "id" with
        | none => (.error (.keyError "id"), .s3Get bucket key :: tr1)
        | some idv =>
          let job_id := pyStr idv
          match poll_runpod_job fx.status_request job_id with
          | (.error e, tr2) => (.error e, .s3Get bucket key :: (tr1 ++ tr2))
          | (.ok summary, tr2) =>
            match summary with
            | .str summary_text =>
              let output_key := deriveOutputKey cfg.OUTPUT_PREFIX key
              match fx.put_object output_bucket output_key summary_text "text/plain" with
              | .error e =>
                (.error e, .s3Get bucket key ::
                  (tr1 ++ tr2 ++ [.s3Put output_bucket output_key summary_text "text/plain"]))
              | .ok _ =>
                (.ok (output_bucket, output_key), .s3Get bucket key ::
                  (tr1 ++ tr2 ++ [.s3Put output_bucket output_key summary_text "text/plain"]))
            | _ =>
              (.error (.attributeError "summary value has no attribute encode"),
               .s3Get bucket key :: (tr1 ++ tr2))

/-- The structured result dictionary of `lambda_handler`. -/
structure LambdaResponse where
  statusCode : Nat
  body : String
deriving DecidableEq

/-- Lines 22-79: `lambda_handler`.  Every exception escaping the `try`
block is turned into a 500 response carrying `str(e)`. -/
def lambda_handler (cfg : Config) (fx : Fx) (event : JVal) : LambdaResponse :=
  match (runPipeline cfg fx event).1 with
  | .ok (output_bucket, output_key) =>
    { statusCode := 200,
      body := jdumps (.obj [
        ("message", .str "Summarization completed successfully"),
        ("summary_location", .str ("s3://" ++ output_bucket ++ "/" ++ output_key))]) }
  | .error e =>
    { statusCode := 500,
      body := jdumps (.obj [("error", .str (pyExcStr e))]) }

/-- A poll attempt that observes a terminal status: a successfully parsed
body whose `status` field is the string `COMPLETED`, `FAILED` or
`CANCELLED`. -/
def observesTerminal : PollResp → Prop
  | .reqError => False
  | .ok status_data =>
    ∃ s, jlookup status_data "status" = some (.str s)
      ∧ (s = "COMPLETED" ∨ s = "FAILED" ∨ s = "CANCELLED")

/-- The completed-output shapes for which the normalization yields a
string: a string; an object whose `text` field, if present, is a string;
a list that is empty or whose first element is an object whose `text`
field, if present, is a string. -/
def stringOutputShape : JVal → Bool
  | .str _ => true
  | .obj fs =>
    match jlookup fs "text" with
    | none => true
    | some (.str _) => true
    | some _ => false
  | .arr [] => true
  | .arr (first :: _) =>
    match first with
    | .obj ffs =>
      match jlookup ffs "text" with
      | none => true
      | some (.str _) => true
      | some _ => false
    | _ => false
  | _ => false

/-- Keys of the top-level JSON object (empty for non-objects). -/
def jtopKeys : JVal → List String
  | .obj fs => fs.map (fun kv => kv.1)
  | _ => []

/-- Keys of the object stored under the top-level `input` field. -/
def innerInputKeys : JVal → List String
  | .obj fs =>
    match jlookup fs "input" with
    | some w => jtopKeys w
    | none => []
  | _ => []

/-- The `prompt` field of the object stored under the top-level `input`
field of a `/run` request body. -/
def getPrompt : JVal → Option JVal
  | .obj fs =>
    match jlookup fs "input" with
    | some (.obj ifs) => jlookup ifs "prompt"
    | _ => none
  | _ => none

/-- An S3 record of the shape the handler expects. -/
def mkRecord (name rawKey : String) : JVal :=
  .obj [("s3", .obj [
    ("bucket", .obj [("name", .str name)]),
    ("object", .obj [("key", .str rawKey)])])]

section PollLemmas

/-- A non-terminal status body makes `v == lit` false for each terminal
literal. -/
theorem eqStrVal_false_of_not_terminal (sd : List (String × JVal)) (lit : String)
    (hlit : lit = "COMPLETED" ∨ lit = "FAILED" ∨ lit = "CANCELLED")
    (h : ¬ observesTerminal (.ok sd)) :
    eqStrVal (jlookup sd "status") lit = false := by
  simp only [observesTerminal] at h
  cases hv : jlookup sd "status" with
  | none => rfl
  | some v =>
    cases v with
    | str t =>
      by_cases ht : t = lit
      · exact absurd ⟨t, hv, ht ▸ hlit⟩ h
      · simp [eqStrVal, ht]
    | null => rfl
    | bool b => rfl
    | num m e => rfl
    | arr xs => rfl
    | obj fs => rfl

/-- A successfully parsed body with no terminal status falls through to
the next attempt. -/
theorem pollStep_cont_of_nonterminal (sd : List (String × JVal))
    (h : ¬ observesTerminal (.ok sd)) : pollStep sd = .cont := by
  unfold pollStep
  rw [eqStrVal_false_of_not_terminal sd "COMPLETED" (Or.inl rfl) h,
    eqStrVal_false_of_not_terminal sd "FAILED" (Or.inr (Or.inl rfl)) h,
    eqStrVal_false_of_not_terminal sd "CANCELLED" (Or.inr (Or.inr rfl)) h]
  rfl

/-- Skipping a block of non-terminal attempts leaves the loop's result
unchanged. -/
theorem pollAux_reach (statusReq : Nat → PollResp) (job_id : String) :
    ∀ (i a f : Nat),
    (∀ j, a ≤ j → j < a + i → ¬ observesTerminal (statusReq j)) → i ≤ f →
    (pollAux statusReq job_id a f).1 = (pollAux statusReq job_id (a + i) (f - i)).1 := by
  intro i
  induction i with
  | zero => intro a f _ _; simp
  | succ n ih =>
    intro a f h hle
    obtain ⟨fp, rfl⟩ : ∃ fp, f = fp + 1 := ⟨f - 1, by omega⟩
    have ha : ¬ observesTerminal (statusReq a) := h a le_rfl (by omega)
    have key : (pollAux statusReq job_id a (fp + 1)).1
        = (pollAux statusReq job_id (a + 1) fp).1 := by
      cases hs : statusReq a with
      | reqError => simp [pollAux, hs]
      | ok sd =>
        have hc : pollStep sd = .cont := pollStep_cont_of_nonterminal sd (hs ▸ ha)
        simp [pollAux, hs, hc]
    rw [key, ih (a + 1) fp (fun j h1 h2 => h j (by omega) (by omega)) (by omega)]
    have e1 : a + 1 + n = a + (n + 1) := by omega
    have e2 : fp - n = fp + 1 - (n + 1) := by omega
    rw [e1, e2]

/-- Every entry of the poll loop's trace is a status request. -/
theorem pollAux_trace (statusReq : Nat → PollResp) (job_id : String) :
    ∀ (f a : Nat), ∀ eff ∈ (pollAux statusReq job_id a f).2,
    eff = Effect.httpStatus job_id := by
  intro f
  induction f with
  | zero => intro a eff h; simp [pollAux] at h
  | succ n ih =>
    intro a eff h
    cases hs : statusReq a with
    | reqError =>
      rw [show pollAux statusReq job_id a (n + 1)
          = ((pollAux statusReq job_id (a + 1) n).1,
             .httpStatus job_id :: (pollAux statusReq job_id (a + 1) n).2) by
        simp [pollAux, hs]] at h
      rcases List.mem_cons.mp h with h | h
      · exact h
      · exact ih (a + 1) eff h
    | ok sd =>
      cases hc : pollStep sd with
      | ret v =>
        rw [show pollAux statusReq job_id a (n + 1)
            = (.ok v, [.httpStatus job_id]) by simp [pollAux, hs, hc]] at h
        simpa using h
      | raise e =>
        rw [show pollAux statusReq job_id a (n + 1)
            = (.error e, [.httpStatus job_id]) by simp [pollAux, hs, hc]] at h
        simpa using h
      | cont =>
        rw [show pollAux statusReq job_id a (n + 1)
            = ((pollAux statusReq job_id (a + 1) n).1,
               .httpStatus job_id :: (pollAux statusReq job_id (a + 1) n).2) by
          simp [pollAux, hs, hc]] at h
        rcases List.mem_cons.mp h with h | h
        · exact h
        · exact ih (a + 1) eff h

end PollLemmas

/-- The normalization of a completed output of one of the string-yielding
shapes produces a string. -/
theorem extract_output_string (out : JVal) (h : stringOutputShape out = true) :
    ∃ s, extract_output out = .ret (.str s) := by
  cases out with
  | null => simp [stringOutputShape] at h
  | bool b => simp [stringOutputShape] at h
  | num m e => simp [stringOutputShape] at h
  | str s => exact ⟨s, rfl⟩
  | obj fs =>
    cases ht : jlookup fs "text" with
    | none => exact ⟨jdumps (.obj fs), by simp [extract_output, ht]⟩
    | some t =>
      cases t with
      | str ts => exact ⟨ts, by simp [extract_output, ht]⟩
      | null => simp [stringOutputShape, ht] at h
      | bool b => simp [stringOutputShape, ht] at h
      | num m e => simp [stringOutputShape, ht] at h
      | arr xs => simp [stringOutputShape, ht] at h
      | obj gs => simp [stringOutputShape, ht] at h
  | arr items =>
    cases items with
    | nil => exact ⟨jdumps (.arr []), rfl⟩
    | cons first rest =>
      cases first with
      | obj ffs =>
        cases ht : jlookup ffs "text" with
        | none =>
          exact ⟨jdumps (.arr (.obj ffs :: rest)), by simp [extract_output, ht]⟩
        | some t =>
          cases t with
          | str ts => exact ⟨ts, by simp [extract_output, ht]⟩
          | null => simp [stringOutputShape, ht] at h
          | bool b => simp [stringOutputShape, ht] at h
          | num m e => simp [stringOutputShape, ht] at h
          | arr xs => simp [stringOutputShape, ht] at h
          | obj gs => simp [stringOutputShape, ht] at h
      | null => simp [stringOutputShape] at h
      | bool b => simp [stringOutputShape] at h
      | num m e => simp [stringOutputShape] at h
      | str s => simp [stringOutputShape] at h
      | arr xs => simp [stringOutputShape] at h

/-- Claim C1 (amended): for every poll response with status COMPLETED whose
body contains an output field that is a string, an object whose text field
(when present) is a string, or a list that is empty or whose first element
is an object whose text field (when present) is a string, the poll loop
returns a single string result, no matter how many non-terminal attempts
precede the response. -/
theorem poll_completed_normalizes (statusReq : Nat → PollResp) (job_id : String)
    (i : Nat) (sd : List (String × JVal)) (out : JVal)
    (hi : i < MAX_POLLING_ATTEMPTS)
    (hpre : ∀ j, j < i → ¬ observesTerminal (statusReq j))
    (hresp : statusReq i = .ok sd)
    (hst : jlookup sd "status" = some (.str "COMPLETED"))
    (hout : jlookup sd "output" = some out)
    (hshape : stringOutputShape out = true) :
    ∃ s, (poll_runpod_job statusReq job_id).1 = .ok (.str s) := by
  obtain ⟨s, hs⟩ := extract_output_string out hshape
  have hstep : pollStep sd = .ret (.str s) := by
    unfold pollStep
    rw [hst, hout]
    exact hs
  have hreach := pollAux_reach statusReq job_id i 0 MAX_POLLING_ATTEMPTS
    (fun j _ h2 => hpre j (by omega)) (by omega)
  obtain ⟨fp, hfp⟩ : ∃ fp, MAX_POLLING_ATTEMPTS - i = fp + 1 :=
    ⟨MAX_POLLING_ATTEMPTS - i - 1, by omega⟩
  refine ⟨s, ?_⟩
  unfold poll_runpod_job
  rw [hreach, hfp, Nat.zero_add]
  simp [pollAux, hresp, hstep]

/-- Claim C1 counterexample: a completed job whose output is a list of
strings does not yield a string result; `output[0].get` raises an
`AttributeError` because the first list element is not a dict. -/
theorem poll_completed_list_crash :
    (poll_runpod_job (fun _ => PollResp.ok
        [("status", .str "COMPLETED"), ("output", .arr [.str "hi"])]) "job-0").1
      = .error (.attributeError "first list element has no attribute get")
    ∧ ∀ s, (poll_runpod_job (fun _ => PollResp.ok
        [("status", .str "COMPLETED"), ("output", .arr [.str "hi"])]) "job-0").1
      ≠ .ok (.str s) := by
  refine ⟨rfl, fun s h => ?_⟩
  have h2 : (Except.error (PyExc.attributeError "first list element has no attribute get")
      : Except PyExc JVal) = Except.ok (JVal.str s) := h
  exact Except.noConfusion h2

/-- Witness for C1: a first poll response completed with a plain string
output yields a string result. -/
theorem poll_completed_normalizes_witness :
    ∃ s, (poll_runpod_job (fun _ => PollResp.ok
        [("status", .str "COMPLETED"), ("output", .str "hello")]) "job-1").1
      = .ok (.str s) :=
  poll_completed_normalizes _ "job-1" 0 _ _ (by decide)
    (fun j hj => absurd hj (Nat.not_lt_zero j)) rfl rfl rfl rfl

/-- Claim C2: when none of the `MAX_POLLING_ATTEMPTS` attempts observes a
terminal status — request errors included, which are retried rather than
aborting the loop — the poll loop raises a `TimeoutError`. -/
theorem poll_times_out (statusReq : Nat → PollResp) (job_id : String)
    (h : ∀ j, j < MAX_POLLING_ATTEMPTS → ¬ observesTerminal (statusReq j)) :
    (poll_runpod_job statusReq job_id).1
      = .error (.timeoutError (timeoutMessage job_id)) := by
  have hreach := pollAux_reach statusReq job_id MAX_POLLING_ATTEMPTS 0
    MAX_POLLING_ATTEMPTS (fun j _ h2 => h j (by omega)) le_rfl
  unfold poll_runpod_job
  rw [hreach]
  rfl

/-- Witness for C2: sixty straight request errors end in the timeout. -/
theorem poll_times_out_witness :
    (poll_runpod_job (fun _ => PollResp.reqError) "job-2").1
      = .error (.timeoutError (timeoutMessage "job-2")) :=
  poll_times_out _ "job-2" (fun _ _ h => h)

/-- The failure message, as a function of the body's fields. -/
theorem failureMessage_eq (sd : List (String × JVal)) (st : String)
    (hst : jlookup sd "status" = some (.str st)) :
    (jlookup sd "error" = none
      ∧ failureMessage sd = "RunPod job failed with status: " ++ st)
    ∨ (∃ ev, jlookup sd "error" = some ev
      ∧ failureMessage sd
          = "RunPod job failed with status: " ++ st ++ ", error: " ++ pyStr ev) := by
  unfold failureMessage
  rw [hst]
  cases he : jlookup sd "error" with
  | none => exact Or.inl ⟨rfl, rfl⟩
  | some ev => exact Or.inr ⟨ev, rfl, rfl⟩

/-- Claim C3: a response with status FAILED or CANCELLED (the first
terminal one the loop reaches) makes the poll loop raise a `ValueError`
whose message contains the status string, plus the body's error field when
present; the error escapes the loop instead of being swallowed by the
transient-error retry. -/
theorem poll_failure_raises (statusReq : Nat → PollResp) (job_id : String)
    (i : Nat) (sd : List (String × JVal)) (st : String)
    (hi : i < MAX_POLLING_ATTEMPTS)
    (hpre : ∀ j, j < i → ¬ observesTerminal (statusReq j))
    (hresp : statusReq i = .ok sd)
    (hst : jlookup sd "status" = some (.str st))
    (hfc : st = "FAILED" ∨ st = "CANCELLED") :
    (poll_runpod_job statusReq job_id).1 = .error (.valueError (failureMessage sd))
    ∧ (∃ x y, failureMessage sd = x ++ st ++ y)
    ∧ (∀ ev, jlookup sd "error" = some ev →
        ∃ x y, failureMessage sd = x ++ pyStr ev ++ y) := by
  have hstep : pollStep sd = .raise (.valueError (failureMessage sd)) := by
    rcases hfc with rfl | rfl
    · unfold pollStep; rw [hst]; rfl
    · unfold pollStep; rw [hst]; rfl
  refine ⟨?_, ?_, ?_⟩
  · have hreach := pollAux_reach statusReq job_id i 0 MAX_POLLING_ATTEMPTS
      (fun j _ h2 => hpre j (by omega)) (by omega)
    obtain ⟨fp, hfp⟩ : ∃ fp, MAX_POLLING_ATTEMPTS - i = fp + 1 :=
      ⟨MAX_POLLING_ATTEMPTS - i - 1, by omega⟩
    unfold poll_runpod_job
    rw [hreach, hfp, Nat.zero_add]
    simp [pollAux, hresp, hstep]
  · rcases failureMessage_eq sd st hst with ⟨_, hm⟩ | ⟨ev, _, hm⟩
    · exact ⟨"RunPod job failed with status: ", "", by
        rw [hm, String.append_empty]⟩
    · exact ⟨"RunPod job failed with status: ", ", error: " ++ pyStr ev, by
        rw [hm, String.append_assoc]⟩
  · intro ev hev
    rcases failureMessage_eq sd st hst with ⟨hn, _⟩ | ⟨ev2, hev2, hm⟩
    · rw [hev] at hn; exact Option.noConfusion hn
    · rw [hev] at hev2
      obtain rfl : ev2 = ev := (Option.some.inj hev2).symm
      exact ⟨"RunPod job failed with status: " ++ st ++ ", error: ", "", by
        rw [hm, String.append_empty]⟩

/-- Witness for C3: a first poll response FAILED with an error detail. -/
theorem poll_failure_raises_witness :
    (poll_runpod_job (fun _ => PollResp.ok
        [("status", .str "FAILED"), ("error", .str "boom")]) "job-3").1
      = .error (.valueError
          (failureMessage [("status", .str "FAILED"), ("error", .str "boom")])) :=
  (poll_failure_raises (fun _ => PollResp.ok
      [("status", .str "FAILED"), ("error", .str "boom")]) "job-3" 0
    [("status", .str "FAILED"), ("error", .str "boom")] "FAILED" (by decide)
    (fun j hj => absurd hj (Nat.not_lt_zero j)) rfl rfl (Or.inl rfl)).1

/-- Every entry of `initiate_runpod_job`'s trace is the `/run` POST whose
body is the payload built from the submitted text. -/
theorem initiate_trace (cfg : Config) (fx : Fx) (text_data : String) :
    ∀ eff ∈ (initiate_runpod_job cfg fx text_data).2,
    eff = Effect.httpRun (buildPayload text_data) := by
  intro eff h
  simp only [initiate_runpod_job] at h
  split at h
  · simp at h
  · split at h
    · simp at h; exact h
    · split at h
      · simp at h; exact h
      · simp at h; exact h

/-- Every external call the pipeline attempts is accounted for: the S3 get
of the parsed bucket and key, the `/run` POST carrying the payload built
from the retrieved text, a status poll, or the S3 put of the summary under
the selected output bucket and the derived key. -/
theorem runPipeline_effects (cfg : Config) (fx : Fx) (event : JVal) :
    ∀ eff ∈ (runPipeline cfg fx event).2,
    ∃ bucket key, parseEvent event = .ok (bucket, key)
      ∧ (eff = .s3Get bucket key
        ∨ (∃ text_data, fx.get_object bucket key = .ok text_data
            ∧ eff = .httpRun (buildPayload text_data))
        ∨ (∃ j, eff = .httpStatus j)
        ∨ (∃ text_data s, fx.get_object bucket key = .ok text_data
            ∧ eff = .s3Put (if cfg.OUTPUT_BUCKET = "" then bucket else cfg.OUTPUT_BUCKET)
                (deriveOutputKey cfg.OUTPUT_PREFIX key) s "text/plain")) := by
  intro eff h
  cases hp : parseEvent event with
  | error e => simp [runPipeline, hp] at h
  | ok bk =>
    obtain ⟨bucket, key⟩ := bk
    refine ⟨bucket, key, rfl, ?_⟩
    cases hg : fx.get_object bucket key with
    | error e =>
      simp [runPipeline, hp, hg] at h
      exact Or.inl h
    | ok text_data =>
      have htr1 := initiate_trace cfg fx text_data
      rcases hinit : initiate_runpod_job cfg fx text_data with ⟨ires, tr1⟩
      rw [hinit] at htr1
      cases ires with
      | error e =>
        simp [runPipeline, hp, hg, hinit] at h
        rcases h with h | h
        · exact Or.inl (by rw [h])
        · exact Or.inr (Or.inl ⟨text_data, rfl, htr1 eff h⟩)
      | ok result =>
        cases hid : jlookup result "id" with
        | none =>
          simp [runPipeline, hp, hg, hinit, hid] at h
          rcases h with h | h
          · exact Or.inl (by rw [h])
          · exact Or.inr (Or.inl ⟨text_data, rfl, htr1 eff h⟩)
        | some idv =>
          rcases hpoll : poll_runpod_job fx.status_request (pyStr idv) with ⟨pres, tr2⟩
          have htr2 : ∀ eff2 ∈ tr2, eff2 = Effect.httpStatus (pyStr idv) := by
            have h0 := pollAux_trace fx.status_request (pyStr idv) MAX_POLLING_ATTEMPTS 0
            have hpoll2 : pollAux fx.status_request (pyStr idv) 0 MAX_POLLING_ATTEMPTS
                = (pres, tr2) := hpoll
            rw [hpoll2] at h0
            exact h0
          cases pres with
          | error e =>
            simp [runPipeline, hp, hg, hinit, hid, hpoll] at h
            rcases h with h | h | h
            · exact Or.inl (by rw [h])
            · exact Or.inr (Or.inl ⟨text_data, rfl, htr1 eff h⟩)
            · exact Or.inr (Or.inr (Or.inl ⟨pyStr idv, htr2 eff h⟩))
          | ok summary =>
            cases summary with
            | str summary_text =>
              cases hput : fx.put_object
                  (if cfg.OUTPUT_BUCKET = "" then bucket else cfg.OUTPUT_BUCKET)
                  (deriveOutputKey cfg.OUTPUT_PREFIX key) summary_text "text/plain" with
              | error e =>
                simp [runPipeline, hp, hg, hinit, hid, hpoll, hput] at h
                rcases h with h | h | h | h
                · exact Or.inl (by rw [h])
                · exact Or.inr (Or.inl ⟨text_data, rfl, htr1 eff h⟩)
                · exact Or.inr (Or.inr (Or.inl ⟨pyStr idv, htr2 eff h⟩))
                · exact Or.inr (Or.inr (Or.inr ⟨text_data, summary_text, rfl, by rw [h]⟩))
              | ok u =>
                simp [runPipeline, hp, hg, hinit, hid, hpoll, hput] at h
                rcases h with h | h | h | h
                · exact Or.inl (by rw [h])
                · exact Or.inr (Or.inl ⟨text_data, rfl, htr1 eff h⟩)
                · exact Or.inr (Or.inr (Or.inl ⟨pyStr idv, htr2 eff h⟩))
                · exact Or.inr (Or.inr (Or.inr ⟨text_data, summary_text, rfl, by rw [h]⟩))
            | null =>
              simp [runPipeline, hp, hg, hinit, hid, hpoll] at h
              rcases h with h | h | h
              · exact Or.inl (by rw [h])
              · exact Or.inr (Or.inl ⟨text_data, rfl, htr1 eff h⟩)
              · exact Or.inr (Or.inr (Or.inl ⟨pyStr idv, htr2 eff h⟩))
            | bool b2 =>
              simp [runPipeline, hp, hg, hinit, hid, hpoll] at h
              rcases h with h | h | h
              · exact Or.inl (by rw [h])
              · exact Or.inr (Or.inl ⟨text_data, rfl, htr1 eff h⟩)
              · exact Or.inr (Or.inr (Or.inl ⟨pyStr idv, htr2 eff h⟩))
            | num m e2 =>
              simp [runPipeline, hp, hg, hinit, hid, hpoll] at h
              rcases h with h | h | h
              · exact Or.inl (by rw [h])
              · exact Or.inr (Or.inl ⟨text_data, rfl, htr1 eff h⟩)
              · exact Or.inr (Or.inr (Or.inl ⟨pyStr idv, htr2 eff h⟩))
            | arr xs =>
              simp [runPipeline, hp, hg, hinit, hid, hpoll] at h
              rcases h with h | h | h
              · exact Or.inl (by rw [h])
              · exact Or.inr (Or.inl ⟨text_data, rfl, htr1 eff h⟩)
              · exact Or.inr (Or.inr (Or.inl ⟨pyStr idv, htr2 eff h⟩))
            | obj fs =>
              simp [runPipeline, hp, hg, hinit, hid, hpoll] at h
              rcases h with h | h | h
              · exact Or.inl (by rw [h])
              · exact Or.inr (Or.inl ⟨text_data, rfl, htr1 eff h⟩)
              · exact Or.inr (Or.inr (Or.inl ⟨pyStr idv, htr2 eff h⟩))

/-- A sample S3 creation event with one record. -/
def sampleEvent : JVal :=
  .obj [("Records", .arr [mkRecord "inbkt" "uploads/call.txt"])]

/-- Sample oracles: retrieval succeeds, the run request returns a job id,
the first poll completes with a string output, and the put succeeds. -/
def sampleFx : Fx where
  get_object := fun _ _ => .ok "hello"
  run_request := fun _ => .ok [("id", .str "j1")]
  status_request := fun _ => .ok [("status", .str "COMPLETED"), ("output", .str "SUM")]
  put_object := fun _ _ _ _ => .ok ()

/-- A fully configured environment. -/
def sampleCfg : Config where
  RUNPOD_API_KEY := some "k"
  RUNPOD_ENDPOINT_URL := some "u"
  OUTPUT_BUCKET := ""
  OUTPUT_PREFIX := "summaries/"

/-- An environment with the API key unset. -/
def cfgMissingKey : Config where
  RUNPOD_API_KEY := none
  RUNPOD_ENDPOINT_URL := some "u"
  OUTPUT_BUCKET := ""
  OUTPUT_PREFIX := "summaries/"

/-- Claim C4: the output key is a deterministic function of the input key
(for a fixed OUTPUT_PREFIX): it is the prefix prepended to the key's
basename with `.txt` replaced by `_summary.txt`; equal input keys map to
equal output keys; and every key the pipeline writes under is derived
this way from the parsed input key. -/
theorem output_key_deterministic :
    (∀ p key, deriveOutputKey p key
        = p ++ pyReplace (basename key) ".txt" "_summary.txt")
    ∧ (∀ p k1 k2, k1 = k2 → deriveOutputKey p k1 = deriveOutputKey p k2)
    ∧ (∀ cfg fx event b k body ct,
        Effect.s3Put b k body ct ∈ (runPipeline cfg fx event).2 →
        ∃ bucket key, parseEvent event = .ok (bucket, key)
          ∧ k = deriveOutputKey cfg.OUTPUT_PREFIX key) := by
  refine ⟨fun _ _ => rfl, fun p k1 k2 h => by rw [h], ?_⟩
  intro cfg fx event b k body ct hmem
  obtain ⟨bucket, key, hp, hcase⟩ := runPipeline_effects cfg fx event _ hmem
  rcases hcase with h | ⟨t, _, h⟩ | ⟨j, h⟩ | ⟨t, s, _, h⟩
  · exact absurd h (by simp)
  · exact absurd h (by simp)
  · exact absurd h (by simp)
  · injection h with hb hk hbody hct
    exact ⟨bucket, key, hp, hk⟩

/-- Witness for C4: the derivation at a concrete key, twice. -/
theorem output_key_deterministic_witness :
    deriveOutputKey "summaries/" "uploads/call.txt"
        = deriveOutputKey "summaries/" "uploads/call.txt"
    ∧ deriveOutputKey "summaries/" "uploads/call.txt" = "summaries/call_summary.txt" :=
  ⟨output_key_deterministic.2.1 "summaries/" "uploads/call.txt" "uploads/call.txt" rfl,
   by decide⟩

/-- Claim C5: no exception of the pipeline propagates out of the handler:
whatever step fails — event parsing, retrieval, submission, polling or
storing — the handler returns statusCode 500 with a JSON body carrying
the error message. -/
theorem handler_returns_500_on_error (cfg : Config) (fx : Fx) (event : JVal)
    (e : PyExc) (h : (runPipeline cfg fx event).1 = .error e) :
    lambda_handler cfg fx event
      = { statusCode := 500, body := jdumps (.obj [("error", .str (pyExcStr e))]) } := by
  unfold lambda_handler
  rw [h]

/-- Witness for C5: a malformed event makes the pipeline fail and the
handler reports it as a 500 result. -/
theorem handler_returns_500_on_error_witness :
    lambda_handler sampleCfg sampleFx .null
      = { statusCode := 500,
          body := jdumps (.obj [("error",
            .str "value is not subscriptable by a string key")]) } :=
  handler_returns_500_on_error sampleCfg sampleFx .null
    (.typeError "value is not subscriptable by a string key") rfl

/-- Claim C6 counterexample: with the API key missing, the pipeline still
performs the storage retrieval — the trace already holds the S3 get when
the configuration ValueError is raised — so the configuration failure
does not come before the storage retrieval. -/
theorem config_check_after_retrieval :
    (runPipeline cfgMissingKey sampleFx sampleEvent).1
        = .error (.valueError "RunPod API key or endpoint URL not configured")
    ∧ (runPipeline cfgMissingKey sampleFx sampleEvent).2
        = [Effect.s3Get "inbkt" "uploads/call.txt"] :=
  ⟨rfl, rfl⟩

/-- Claim C6 (amended): with a missing or empty API key or endpoint URL
the configuration error is raised before any request to the inference API
— the trace holds no run or status request — but only after the storage
retrieval: when parsing and retrieval succeed, the pipeline's result is
the configuration ValueError. -/
theorem config_error_before_api_calls (cfg : Config) (fx : Fx) (event : JVal)
    (hcfg : truthy cfg.RUNPOD_API_KEY = false ∨ truthy cfg.RUNPOD_ENDPOINT_URL = false) :
    (∀ eff ∈ (runPipeline cfg fx event).2,
      (∀ p, eff ≠ Effect.httpRun p) ∧ (∀ j, eff ≠ Effect.httpStatus j))
    ∧ (∀ bucket key text_data, parseEvent event = .ok (bucket, key) →
        fx.get_object bucket key = .ok text_data →
        (runPipeline cfg fx event).1
          = .error (.valueError "RunPod API key or endpoint URL not configured")) := by
  have hcond : (!truthy cfg.RUNPOD_API_KEY || !truthy cfg.RUNPOD_ENDPOINT_URL) = true := by
    rcases hcfg with h | h <;> simp [h]
  have hinit : ∀ t, initiate_runpod_job cfg fx t
      = (.error (.valueError "RunPod API key or endpoint URL not configured"), []) := by
    intro t
    simp [initiate_runpod_job, hcond]
  constructor
  · intro eff hmem
    cases hp : parseEvent event with
    | error e => simp [runPipeline, hp] at hmem
    | ok bk =>
      obtain ⟨bucket, key⟩ := bk
      cases hg : fx.get_object bucket key with
      | error e =>
        simp [runPipeline, hp, hg] at hmem
        subst hmem
        exact ⟨fun p => by simp, fun j => by simp⟩
      | ok t =>
        simp [runPipeline, hp, hg, hinit] at hmem
        subst hmem
        exact ⟨fun p => by simp, fun j => by simp⟩
  · intro bucket key t hp hg
    simp [runPipeline, hp, hg, hinit]

/-- Witness for C6: with the key unset, the sample run ends in the
configuration error. -/
theorem config_error_before_api_calls_witness :
    (runPipeline cfgMissingKey sampleFx sampleEvent).1
      = .error (.valueError "RunPod API key or endpoint URL not configured") :=
  (config_error_before_api_calls cfgMissingKey sampleFx sampleEvent (Or.inl rfl)).2
    "inbkt" "uploads/call.txt" "hello" rfl rfl

/-- Claim C7 counterexample: the `/run` request body has the single
top-level field `input`, not the four fields of the claim, and no field
named `max_tokens` appears at either level (the inner field is
`max_new_tokens`). -/
theorem run_payload_not_flat :
    jtopKeys (buildPayload "hello") = ["input"]
    ∧ jtopKeys (buildPayload "hello") ≠ ["prompt", "max_tokens", "temperature", "top_p"]
    ∧ "max_tokens" ∉ jtopKeys (buildPayload "hello")
    ∧ innerInputKeys (buildPayload "hello")
        = ["prompt", "max_new_tokens", "temperature", "top_p"]
    ∧ "max_tokens" ∉ innerInputKeys (buildPayload "hello") := by
  refine ⟨rfl, ?_, ?_, rfl, ?_⟩ <;> decide

/-- Claim C7 (amended): the body of every `/run` POST is the one-field
object `input` whose value has exactly the four fields prompt,
max_new_tokens, temperature and top_p — none named max_tokens — and every
run request the pipeline issues carries a payload of this form. -/
theorem run_payload_shape (text_data : String) :
    jtopKeys (buildPayload text_data) = ["input"]
    ∧ innerInputKeys (buildPayload text_data)
        = ["prompt", "max_new_tokens", "temperature", "top_p"]
    ∧ "max_tokens" ∉ jtopKeys (buildPayload text_data)
    ∧ "max_tokens" ∉ innerInputKeys (buildPayload text_data)
    ∧ (∀ cfg fx event p, Effect.httpRun p ∈ (runPipeline cfg fx event).2 →
        ∃ t, p = buildPayload t) := by
  refine ⟨rfl, rfl,
    (by decide : ("max_tokens" : String) ∉ (["input"] : List String)),
    (by decide : ("max_tokens" : String)
      ∉ (["prompt", "max_new_tokens", "temperature", "top_p"] : List String)), ?_⟩
  intro cfg fx event p hmem
  obtain ⟨bucket, key, hp, hcase⟩ := runPipeline_effects cfg fx event _ hmem
  rcases hcase with h | ⟨t, _, h⟩ | ⟨j, h⟩ | ⟨t, s, _, h⟩
  · exact absurd h (by simp)
  · injection h with h1
    exact ⟨t, h1⟩
  · exact absurd h (by simp)
  · exact absurd h (by simp)

/-- Witness for C7: the payload of a concrete text. -/
theorem run_payload_shape_witness :
    innerInputKeys (buildPayload "hello")
      = ["prompt", "max_new_tokens", "temperature", "top_p"] :=
  (run_payload_shape "hello").2.1

/-- Claim C8 counterexample: the prompt submitted for the retrieved text
"hello" is the instruction preamble followed by the text, not the text
itself. -/
theorem prompt_not_identity :
    getPrompt (buildPayload "hello") = some (.str (promptHeader ++ "hello"))
    ∧ getPrompt (buildPayload "hello") ≠ some (.str "hello") := by
  refine ⟨rfl, fun h => ?_⟩
  injection h with h1
  injection h1 with h2
  exact absurd h2 (by decide)

/-- Claim C8 (amended): the retrieved text is embedded unchanged as the
suffix of the prompt: the prompt of every issued run payload equals the
fixed instruction preamble followed by the retrieved text. -/
theorem prompt_embeds_text (text_data : String) :
    getPrompt (buildPayload text_data) = some (.str (promptHeader ++ text_data))
    ∧ (∃ pre2, promptHeader ++ text_data = pre2 ++ text_data)
    ∧ (∀ cfg fx event p, Effect.httpRun p ∈ (runPipeline cfg fx event).2 →
        ∃ bucket key t, parseEvent event = .ok (bucket, key)
          ∧ fx.get_object bucket key = .ok t
          ∧ getPrompt p = some (.str (promptHeader ++ t))) := by
  refine ⟨rfl, ⟨promptHeader, rfl⟩, ?_⟩
  intro cfg fx event p hmem
  obtain ⟨bucket, key, hp, hcase⟩ := runPipeline_effects cfg fx event _ hmem
  rcases hcase with h | ⟨t, hg, h⟩ | ⟨j, h⟩ | ⟨t, s, _, h⟩
  · exact absurd h (by simp)
  · injection h with h1
    exact ⟨bucket, key, t, hp, hg, by rw [h1]; rfl⟩
  · exact absurd h (by simp)
  · exact absurd h (by simp)

/-- Witness for C8: the prompt of a concrete text. -/
theorem prompt_embeds_text_witness :
    getPrompt (buildPayload "hello") = some (.str (promptHeader ++ "hello")) :=
  (prompt_embeds_text "hello").1

/-- Claim C9: every write of the summary goes to the input bucket when
OUTPUT_BUCKET is unset or empty, and to the configured bucket when it is
non-empty. -/
theorem output_bucket_selection (cfg : Config) (fx : Fx) (event : JVal)
    (b k body ct : String)
    (hmem : Effect.s3Put b k body ct ∈ (runPipeline cfg fx event).2) :
    ∃ bucket key, parseEvent event = .ok (bucket, key)
      ∧ (cfg.OUTPUT_BUCKET = "" → b = bucket)
      ∧ (cfg.OUTPUT_BUCKET ≠ "" → b = cfg.OUTPUT_BUCKET) := by
  obtain ⟨bucket, key, hp, hcase⟩ := runPipeline_effects cfg fx event _ hmem
  rcases hcase with h | ⟨t, _, h⟩ | ⟨j, h⟩ | ⟨t, s, _, h⟩
  · exact absurd h (by simp)
  · exact absurd h (by simp)
  · exact absurd h (by simp)
  · injection h with hb hk hbody hct
    refine ⟨bucket, key, hp, ?_, ?_⟩
    · intro hc; rw [hb, if_pos hc]
    · intro hc; rw [hb, if_neg hc]

/-- Witness for C9: the sample run writes its summary to the input
bucket, OUTPUT_BUCKET being empty. -/
theorem output_bucket_selection_witness :
    ∃ bucket key, parseEvent sampleEvent = .ok (bucket, key)
      ∧ (sampleCfg.OUTPUT_BUCKET = "" → "inbkt" = bucket)
      ∧ (sampleCfg.OUTPUT_BUCKET ≠ "" → "inbkt" = sampleCfg.OUTPUT_BUCKET) :=
  output_bucket_selection sampleCfg sampleFx sampleEvent "inbkt"
    "summaries/call_summary.txt" "SUM" "text/plain"
    (List.Mem.tail _ (List.Mem.tail _ (List.Mem.tail _ (List.Mem.head _))))

/-- Claim C10: only the first record of the event is processed: the
pipeline's result and trace are unchanged under any replacement of the
records after the first, and the bucket and key are taken from the first
record, the key URL-decoded with unquote_plus. -/
theorem only_first_record (cfg : Config) (fx : Fx) (name rawKey : String)
    (r : JVal) (rs rs2 : List JVal) (extra : List (String × JVal)) :
    runPipeline cfg fx (.obj (("Records", .arr (r :: rs)) :: extra))
      = runPipeline cfg fx (.obj (("Records", .arr (r :: rs2)) :: extra))
    ∧ parseEvent (.obj (("Records", .arr (mkRecord name rawKey :: rs)) :: extra))
      = .ok (name, unquote_plus rawKey) := by
  constructor
  · have h1 : record0 (JVal.obj (("Records", .arr (r :: rs)) :: extra)) = .ok r := rfl
    have h2 : record0 (JVal.obj (("Records", .arr (r :: rs2)) :: extra)) = .ok r := rfl
    unfold runPipeline
    unfold parseEvent
    rw [h1, h2]
  · rfl
